import Mathlib

/-!
Shallow embedding of the Gemini image-transform adapter
(`services/geminiService.ts`) and the relevant part of its call site
(`src/App.tsx`).

The remote call `ai.models.generateContent` is modelled as a caller-supplied
function `send : GenRequest → Except ε GenResponse`: an `Except.error` value
stands for a rejected promise (a thrown exception) and `Except.ok` for a
resolved response.  Optional fields of the SDK's response objects
(`candidates?`, `content?`, `parts?`) are modelled with `Option`.
-/

namespace AndyStorm

/-- The closed set of artistic styles (`export type ArtisticStyle = ...`). -/
inductive ArtisticStyle
  | watercolor
  | oil
  | charcoal
  | cyberpunk
  | pencil
  | popart
deriving DecidableEq, Repr

/-- The prompt catalog `STYLE_PROMPTS : Record<ArtisticStyle, string>`. -/
def STYLE_PROMPTS : ArtisticStyle → String
  | .watercolor => "Transform this image into a vibrant watercolor splash effect sketch. The style should be artistic, with visible brush strokes, paint drips, and a beautiful blend of colors, while maintaining the core subject of the original photo."
  | .oil => "Transform this image into a classic oil painting. Use thick, visible brush strokes, rich textures, and deep, vibrant colors. The final result should look like a masterpiece on canvas."
  | .charcoal => "Transform this image into a rough charcoal sketch. Use black and white tones, expressive hand-drawn lines, and smudged shading to create a dramatic, artistic feel."
  | .cyberpunk => "Transform this image into a neon cyberpunk style. Use high contrast, glowing edges, and a palette dominated by electric pink, blue, and purple. Add a futuristic, digital glitch aesthetic."
  | .pencil => "Transform this image into a detailed pencil drawing. Use fine graphite lines, realistic shading, and cross-hatching to create a classic, hand-sketched look on paper."
  | .popart => "Transform this image into a bold pop art style. Use vibrant, flat colors, thick outlines, and halftone dot patterns reminiscent of 1960s comic book art."

/-- An inline binary payload `{ data, mimeType }`. -/
structure InlineData where
  data : String
  mimeType : String
deriving DecidableEq, Repr

/-- A content part: a JS object that may carry `inlineData` and/or `text`. -/
structure Part where
  inlineData : Option InlineData := none
  text : Option String := none
deriving DecidableEq, Repr

/-- A candidate's `content`, whose `parts` list may be absent. -/
structure Content where
  parts : Option (List Part) := none
deriving DecidableEq, Repr

/-- A response candidate, whose `content` may be absent. -/
structure Candidate where
  content : Option Content := none
deriving DecidableEq, Repr

/-- The response consumed by the adapter: `candidates` may be absent. -/
structure GenResponse where
  candidates : Option (List Candidate) := none
deriving DecidableEq, Repr

/-- The request passed to `ai.models.generateContent`: a model identifier and
the ordered list `contents.parts`. -/
structure GenRequest where
  model : String
  parts : List Part
deriving DecidableEq, Repr

/-- The data URI built by the adapter from an inline payload. -/
def dataUri (d : InlineData) : String :=
  "data:" ++ d.mimeType ++ ";base64," ++ d.data

/-- The extraction loop `for (const part of ...) if (part.inlineData) return ...`. -/
def firstInlineImage : List Part → Option String
  | [] => none
  | p :: rest =>
    match p.inlineData with
    | some d => some (dataUri d)
    | none => firstInlineImage rest

/-- The guarded access `response.candidates?.[0]?.content?.parts || []`. -/
def responseParts (response : GenResponse) : List Part :=
  ((((response.candidates.bind List.head?).bind Candidate.content).bind Content.parts)).getD []

/-- The request built by `transformToArtisticStyle`, with the catalog
abstracted so that state-passing variants can read it from the world. -/
def styleRequestWith (catalog : ArtisticStyle → String)
    (base64Image mimeType : String) (style : ArtisticStyle) : GenRequest :=
  { model := "gemini-2.5-flash-image",
    parts := [{ inlineData := some { data := base64Image, mimeType := mimeType } },
              { text := some (catalog style) }] }

/-- The request built by `transformToArtisticStyle`. -/
def styleRequest (base64Image mimeType : String) (style : ArtisticStyle) : GenRequest :=
  styleRequestWith STYLE_PROMPTS base64Image mimeType style

/-- The instruction text synthesized by `swapOutfit` (template literal with
the caller-supplied description interpolated). -/
def outfitPrompt (outfitDescription : String) : String :=
  "Please swap the outfit of the person in this image with the following description: "
    ++ outfitDescription
    ++ ". Keep the person\x27s identity, pose, and background as consistent as possible. Only change the clothing."

/-- The request built by `swapOutfit`. -/
def outfitRequest (base64Image mimeType outfitDescription : String) : GenRequest :=
  { model := "gemini-2.5-flash-image",
    parts := [{ inlineData := some { data := base64Image, mimeType := mimeType } },
              { text := some (outfitPrompt outfitDescription) }] }

/-- `transformToArtisticStyle`: build the request, await `send`, scan the
response parts for the first inline payload; rethrow any failure unchanged. -/
def transformToArtisticStyle {ε : Type} (send : GenRequest → Except ε GenResponse)
    (base64Image mimeType : String) (style : ArtisticStyle) : Except ε (Option String) :=
  match send (styleRequest base64Image mimeType style) with
  | .ok response => .ok (firstInlineImage (responseParts response))
  | .error e => .error e

/-- `swapOutfit`: same shape as `transformToArtisticStyle`, with the
interpolated outfit instruction as the text part. -/
def swapOutfit {ε : Type} (send : GenRequest → Except ε GenResponse)
    (base64Image mimeType outfitDescription : String) : Except ε (Option String) :=
  match send (outfitRequest base64Image mimeType outfitDescription) with
  | .ok response => .ok (firstInlineImage (responseParts response))
  | .error e => .error e

/-- Observable adapter state: the module-level prompt catalog and the log of
outbound network requests.  The adapter holds nothing else across calls. -/
structure World where
  catalog : ArtisticStyle → String
  outbound : List GenRequest

/-- State-passing form of `transformToArtisticStyle`: reads the catalog from
the world and records the single outbound request. -/
def transformToArtisticStyleW {ε : Type} (send : GenRequest → Except ε GenResponse)
    (w : World) (base64Image mimeType : String) (style : ArtisticStyle) :
    World × Except ε (Option String) :=
  let req := styleRequestWith w.catalog base64Image mimeType style
  ({ w with outbound := w.outbound ++ [req] },
   match send req with
   | .ok response => .ok (firstInlineImage (responseParts response))
   | .error e => .error e)

/-- State-passing form of `swapOutfit`. -/
def swapOutfitW {ε : Type} (send : GenRequest → Except ε GenResponse)
    (w : World) (base64Image mimeType outfitDescription : String) :
    World × Except ε (Option String) :=
  let req := outfitRequest base64Image mimeType outfitDescription
  ({ w with outbound := w.outbound ++ [req] },
   match send req with
   | .ok response => .ok (firstInlineImage (responseParts response))
   | .error e => .error e)

/-- The two UI modes of `App.tsx`. -/
inductive Mode
  | style
  | outfit
deriving DecidableEq, Repr

/-- What `handleTransform` decides to do once the image is decoded: call one
of the two adapter operations, or return early with a validation error. -/
inductive AdapterCall
  | styleCall (base64Data mimeType : String) (style : ArtisticStyle)
  | outfitCall (base64Data mimeType outfitDescription : String)
  | validationError (msg : String)
deriving DecidableEq, Repr

/-- The dispatch logic of `handleTransform` in `App.tsx`: in outfit mode the
trimmed description is checked (`if (!outfitDescription.trim())`) and an
error message is set instead of calling the adapter when it is empty. -/
def handleTransformDispatch (mode : Mode) (base64Data mimeType : String)
    (selectedStyle : ArtisticStyle) (outfitDescription : String) : AdapterCall :=
  match mode with
  | .style => .styleCall base64Data mimeType selectedStyle
  | .outfit =>
    if outfitDescription.trim = "" then
      .validationError "Please provide an outfit description."
    else
      .outfitCall base64Data mimeType outfitDescription

/-- Scanning a part list in order returns the first inline payload, ignoring
any preceding parts without one. -/
theorem firstInlineImage_append (pre : List Part) (p : Part) (rest : List Part)
    (hpre : ∀ q ∈ pre, q.inlineData = none) (d : InlineData) (hp : p.inlineData = some d) :
    firstInlineImage (pre ++ p :: rest) = some (dataUri d) := by
  induction pre with
  | nil => simp [firstInlineImage, hp]
  | cons q qs ih =>
    have hq : q.inlineData = none := hpre q (by simp)
    have : firstInlineImage (qs ++ p :: rest) = some (dataUri d) :=
      ih (fun r hr => hpre r (by simp [hr]))
    simpa [firstInlineImage, hq] using this

/-- Scanning a part list with no inline payload returns nothing. -/
theorem firstInlineImage_none (l : List Part) (h : ∀ q ∈ l, q.inlineData = none) :
    firstInlineImage l = none := by
  induction l with
  | nil => rfl
  | cons q qs ih =>
    have hq : q.inlineData = none := h q (by simp)
    have : firstInlineImage qs = none := ih (fun r hr => h r (by simp [hr]))
    simpa [firstInlineImage, hq] using this

/-- C1: whenever the response delivered by the transport has first-candidate
parts of the form `pre ++ p :: rest` with no inline payload in `pre` and
inline payload `d` in `p`, both `transformToArtisticStyle` and `swapOutfit`
return the string `data:<mediaType>;base64,<bytes>` built from `d`, scanning
parts in order and skipping the preceding non-image parts. -/
theorem adapters_return_first_inline_image {ε : Type}
    (send sendOutfit : GenRequest → Except ε GenResponse)
    (img mime : String) (style : ArtisticStyle) (desc : String)
    (resp : GenResponse) (pre : List Part) (p : Part) (rest : List Part) (d : InlineData)
    (hsend : send (styleRequest img mime style) = .ok resp)
    (hsendO : sendOutfit (outfitRequest img mime desc) = .ok resp)
    (hparts : responseParts resp = pre ++ p :: rest)
    (hpre : ∀ q ∈ pre, q.inlineData = none)
    (hp : p.inlineData = some d) :
    transformToArtisticStyle send img mime style
        = .ok (some ("data:" ++ d.mimeType ++ ";base64," ++ d.data))
      ∧ swapOutfit sendOutfit img mime desc
        = .ok (some ("data:" ++ d.mimeType ++ ";base64," ++ d.data)) := by
  have hfirst : firstInlineImage (responseParts resp) = some (dataUri d) := by
    rw [hparts]
    exact firstInlineImage_append pre p rest hpre d hp
  refine ⟨?_, ?_⟩
  · simp [transformToArtisticStyle, hsend, hfirst, dataUri]
  · simp [swapOutfit, hsendO, hfirst, dataUri]

/-- A text part used by the concrete fixtures. -/
def fixtureTextPart : Part := { text := some "here is your image" }

/-- An inline image part used by the concrete fixtures. -/
def fixtureImagePart : Part := { inlineData := some { data := "QUJD", mimeType := "image/png" } }

/-- A concrete response fixture: a text part followed by an inline image part. -/
def respTextThenImage : GenResponse :=
  { candidates := some [{ content := some { parts := some [fixtureTextPart, fixtureImagePart] } }] }

/-- C1 witness: on a fixture where the first inline-image part is second, both
adapters return its data URI. -/
theorem adapters_return_first_inline_image_witness :
    transformToArtisticStyle (fun _ => (Except.ok respTextThenImage : Except String GenResponse))
        "QkJC" "image/jpeg" .oil
      = .ok (some ("data:" ++ "image/png" ++ ";base64," ++ "QUJD"))
    ∧ swapOutfit (fun _ => (Except.ok respTextThenImage : Except String GenResponse))
        "QkJC" "image/jpeg" "a red coat"
      = .ok (some ("data:" ++ "image/png" ++ ";base64," ++ "QUJD")) :=
  adapters_return_first_inline_image
    (fun _ => (Except.ok respTextThenImage : Except String GenResponse))
    (fun _ => (Except.ok respTextThenImage : Except String GenResponse))
    "QkJC" "image/jpeg" .oil "a red coat" respTextThenImage
    [fixtureTextPart] fixtureImagePart [] { data := "QUJD", mimeType := "image/png" }
    rfl rfl (by decide) (by decide) rfl

/-- C2: whenever the delivered response has no inline-image part among the
first candidate's parts, both adapters return `none` rather than failing. -/
theorem adapters_return_none_without_inline_image {ε : Type}
    (send sendOutfit : GenRequest → Except ε GenResponse)
    (img mime : String) (style : ArtisticStyle) (desc : String)
    (resp : GenResponse)
    (hsend : send (styleRequest img mime style) = .ok resp)
    (hsendO : sendOutfit (outfitRequest img mime desc) = .ok resp)
    (hnone : ∀ q ∈ responseParts resp, q.inlineData = none) :
    transformToArtisticStyle send img mime style = .ok none
      ∧ swapOutfit sendOutfit img mime desc = .ok none := by
  have hfirst : firstInlineImage (responseParts resp) = none :=
    firstInlineImage_none _ hnone
  refine ⟨?_, ?_⟩
  · simp [transformToArtisticStyle, hsend, hfirst]
  · simp [swapOutfit, hsendO, hfirst]

/-- A concrete text-only response fixture. -/
def respTextOnly : GenResponse :=
  { candidates := some [{ content := some { parts := some [fixtureTextPart] } }] }

/-- C2 witness: on a text-only fixture, both adapters return `none`. -/
theorem adapters_return_none_without_inline_image_witness :
    transformToArtisticStyle (fun _ => (Except.ok respTextOnly : Except String GenResponse))
        "QkJC" "image/png" .watercolor = .ok none
    ∧ swapOutfit (fun _ => (Except.ok respTextOnly : Except String GenResponse))
        "QkJC" "image/png" "a blue dress" = .ok none :=
  adapters_return_none_without_inline_image
    (fun _ => (Except.ok respTextOnly : Except String GenResponse))
    (fun _ => (Except.ok respTextOnly : Except String GenResponse))
    "QkJC" "image/png" .watercolor "a blue dress" respTextOnly
    rfl rfl (by decide)

/-- C3: when the transport fails, both adapters propagate the underlying
failure value itself, unchanged, with no retry and no recovery. -/
theorem adapters_propagate_failure {ε : Type}
    (send sendOutfit : GenRequest → Except ε GenResponse)
    (img mime : String) (style : ArtisticStyle) (desc : String) (e : ε)
    (hsend : send (styleRequest img mime style) = .error e)
    (hsendO : sendOutfit (outfitRequest img mime desc) = .error e) :
    transformToArtisticStyle send img mime style = .error e
      ∧ swapOutfit sendOutfit img mime desc = .error e := by
  refine ⟨?_, ?_⟩
  · simp [transformToArtisticStyle, hsend]
  · simp [swapOutfit, hsendO]

/-- C3 witness: a simulated transport failure is rethrown as-is by both
adapters. -/
theorem adapters_propagate_failure_witness :
    transformToArtisticStyle (fun _ => (Except.error "network down" : Except String GenResponse))
        "QkJC" "image/png" .cyberpunk = .error "network down"
    ∧ swapOutfit (fun _ => (Except.error "network down" : Except String GenResponse))
        "QkJC" "image/png" "a tuxedo" = .error "network down" :=
  adapters_propagate_failure
    (fun _ => (Except.error "network down" : Except String GenResponse))
    (fun _ => (Except.error "network down" : Except String GenResponse))
    "QkJC" "image/png" .cyberpunk "a tuxedo" "network down" rfl rfl

/-- C4: the prompt catalog is total over the closed style set and every
instruction string is non-empty and contains the word "Transform". -/
theorem stylePrompts_nonempty_contain_transform (s : ArtisticStyle) :
    STYLE_PROMPTS s ≠ ""
      ∧ ∃ before after, STYLE_PROMPTS s = before ++ ("Transform" ++ after) := by
  cases s
  case watercolor => exact ⟨by decide, "", " this image into a vibrant watercolor splash effect sketch. The style should be artistic, with visible brush strokes, paint drips, and a beautiful blend of colors, while maintaining the core subject of the original photo.", rfl⟩
  case oil => exact ⟨by decide, "", " this image into a classic oil painting. Use thick, visible brush strokes, rich textures, and deep, vibrant colors. The final result should look like a masterpiece on canvas.", rfl⟩
  case charcoal => exact ⟨by decide, "", " this image into a rough charcoal sketch. Use black and white tones, expressive hand-drawn lines, and smudged shading to create a dramatic, artistic feel.", rfl⟩
  case cyberpunk => exact ⟨by decide, "", " this image into a neon cyberpunk style. Use high contrast, glowing edges, and a palette dominated by electric pink, blue, and purple. Add a futuristic, digital glitch aesthetic.", rfl⟩
  case pencil => exact ⟨by decide, "", " this image into a detailed pencil drawing. Use fine graphite lines, realistic shading, and cross-hatching to create a classic, hand-sketched look on paper.", rfl⟩
  case popart => exact ⟨by decide, "", " this image into a bold pop art style. Use vibrant, flat colors, thick outlines, and halftone dot patterns reminiscent of 1960s comic book art.", rfl⟩

/-- C5: the text part `swapOutfit` sends is the fixed identity/pose/background
preserving template with the caller-supplied description interpolated
verbatim as a literal substring. -/
theorem swapOutfit_interpolates_description_verbatim (img mime desc : String) :
    (outfitRequest img mime desc).parts[1]? =
      some { inlineData := none,
             text := some ("Please swap the outfit of the person in this image with the following description: "
               ++ desc
               ++ ". Keep the person\x27s identity, pose, and background as consistent as possible. Only change the clothing.") } := rfl

/-- C6: every invocation of either adapter sends exactly one request whose
parts are, in order, one inline binary part with the caller's bytes and media
type and one text part with the instruction, under the image-capable model
identifier `gemini-2.5-flash-image`. -/
theorem outbound_request_shape {ε : Type} (send : GenRequest → Except ε GenResponse)
    (log : List GenRequest) (img mime : String) (style : ArtisticStyle) (desc : String) :
    styleRequest img mime style =
      { model := "gemini-2.5-flash-image",
        parts := [{ inlineData := some { data := img, mimeType := mime }, text := none },
                  { inlineData := none, text := some (STYLE_PROMPTS style) }] }
    ∧ outfitRequest img mime desc =
      { model := "gemini-2.5-flash-image",
        parts := [{ inlineData := some { data := img, mimeType := mime }, text := none },
                  { inlineData := none, text := some (outfitPrompt desc) }] }
    ∧ (transformToArtisticStyleW send { catalog := STYLE_PROMPTS, outbound := log } img mime style).1.outbound
        = log ++ [styleRequest img mime style]
    ∧ (swapOutfitW send { catalog := STYLE_PROMPTS, outbound := log } img mime desc).1.outbound
        = log ++ [outfitRequest img mime desc] :=
  ⟨rfl, rfl, rfl, rfl⟩

/-- C7: `swapOutfit` performs no validation of the description (for every
string, the empty one included, it still records exactly the outbound request),
while the `handleTransform` call site returns early with an error message
exactly when the trimmed description is empty, and otherwise calls the
adapter. -/
theorem swapOutfit_unvalidated_callsite_checks {ε : Type}
    (send : GenRequest → Except ε GenResponse) (w : World)
    (img mime desc : String) (style : ArtisticStyle) :
    (swapOutfitW send w img mime desc).1.outbound = w.outbound ++ [outfitRequest img mime desc]
    ∧ (swapOutfitW send w img mime "").1.outbound = w.outbound ++ [outfitRequest img mime ""]
    ∧ handleTransformDispatch .outfit img mime style desc =
        (if desc.trim = "" then .validationError "Please provide an outfit description."
         else .outfitCall img mime desc) :=
  ⟨rfl, rfl, rfl⟩

/-- C8: neither adapter mutates state: the catalog is identical before and
after every call, the only effect is appending the single outbound request,
and the returned value is the same pure function of the arguments as the
stateless definitions. -/
theorem adapters_mutate_no_state {ε : Type} (send : GenRequest → Except ε GenResponse)
    (w : World) (img mime : String) (style : ArtisticStyle) (desc : String) :
    (transformToArtisticStyleW send w img mime style).1.catalog = w.catalog
    ∧ (transformToArtisticStyleW send w img mime style).1.outbound
        = w.outbound ++ [styleRequestWith w.catalog img mime style]
    ∧ (swapOutfitW send w img mime desc).1.catalog = w.catalog
    ∧ (swapOutfitW send w img mime desc).1.outbound = w.outbound ++ [outfitRequest img mime desc]
    ∧ (transformToArtisticStyleW send { catalog := STYLE_PROMPTS, outbound := w.outbound } img mime style).2
        = transformToArtisticStyle send img mime style
    ∧ (swapOutfitW send w img mime desc).2 = swapOutfit send img mime desc :=
  ⟨rfl, rfl, rfl, rfl, rfl, rfl⟩

/-- C9: when the response has no candidates, an empty candidate list, a first
candidate without content, or content without a parts list, both adapters
return `none` instead of throwing: every missing field is guarded. -/
theorem adapters_null_on_missing_fields {ε : Type}
    (send sendOutfit : GenRequest → Except ε GenResponse)
    (img mime : String) (style : ArtisticStyle) (desc : String)
    (resp : GenResponse)
    (hsend : send (styleRequest img mime style) = .ok resp)
    (hsendO : sendOutfit (outfitRequest img mime desc) = .ok resp)
    (hmissing : resp.candidates = none ∨ resp.candidates = some []
      ∨ ∃ c cs, resp.candidates = some (c :: cs)
          ∧ (c.content = none ∨ ∃ ct, c.content = some ct ∧ ct.parts = none)) :
    transformToArtisticStyle send img mime style = .ok none
      ∧ swapOutfit sendOutfit img mime desc = .ok none := by
  have hparts : responseParts resp = [] := by
    rcases hmissing with h | h | ⟨c, cs, hc, h | ⟨ct, hct, hp⟩⟩
    · simp [responseParts, h]
    · simp [responseParts, h]
    · simp [responseParts, hc, h]
    · simp [responseParts, hc, hct, hp]
  have hfirst : firstInlineImage (responseParts resp) = none := by
    rw [hparts]; rfl
  refine ⟨?_, ?_⟩
  · simp [transformToArtisticStyle, hsend, hfirst]
  · simp [swapOutfit, hsendO, hfirst]

/-- C9 witness: a response with absent `candidates` yields `none` from both
adapters. -/
theorem adapters_null_on_missing_fields_witness :
    transformToArtisticStyle
        (fun _ => (Except.ok { candidates := none } : Except String GenResponse))
        "QkJC" "image/png" .pencil = .ok none
    ∧ swapOutfit
        (fun _ => (Except.ok { candidates := none } : Except String GenResponse))
        "QkJC" "image/png" "a green scarf" = .ok none :=
  adapters_null_on_missing_fields
    (fun _ => (Except.ok { candidates := none } : Except String GenResponse))
    (fun _ => (Except.ok { candidates := none } : Except String GenResponse))
    "QkJC" "image/png" .pencil "a green scarf" { candidates := none }
    rfl rfl (Or.inl rfl)

/-- C10: the two operations select the same model identifier, send the same
inline image part, and apply the same extraction: on any identical transport
outcome they return equal results. -/
theorem adapters_same_model_same_extraction {ε : Type} (r : Except ε GenResponse)
    (img mime : String) (style : ArtisticStyle) (desc : String) :
    (styleRequest img mime style).model = "gemini-2.5-flash-image"
    ∧ (outfitRequest img mime desc).model = "gemini-2.5-flash-image"
    ∧ (styleRequest img mime style).parts[0]? = (outfitRequest img mime desc).parts[0]?
    ∧ transformToArtisticStyle (fun _ => r) img mime style
        = swapOutfit (fun _ => r) img mime desc := by
  refine ⟨rfl, rfl, rfl, ?_⟩
  cases r <;> rfl

end AndyStorm
